import Mathlib

/-!
Verification of the autocovariance / gait-regularity layer of scikit-digital-health.

The Python sources are embedded shallowly:

* floating-point arrays become `List ℝ` (or `List ℚ` where only ordering and
  exact arithmetic matter, so that statements can be checked by `decide`);
* `numpy` reductions (`mean`, `std(ddof=1)`, `sum`, `percentile`, `argmin`)
  and `scipy.signal.find_peaks` are translated function by function;
* code that raises a Python exception is modelled with `Except`, and the
  `nan` sentinel return with `Option`.
-/

/-- Model of numpy `mean` on a one-dimensional array. -/
noncomputable def npMean (l : List ℝ) : ℝ := l.sum / l.length

/-- Model of numpy `std(l, ddof=1)`: the square root of the sum of squared
deviations from the mean divided by `N - 1`. -/
noncomputable def npStd (l : List ℝ) : ℝ :=
  Real.sqrt ((l.map (fun v => (v - npMean l) ^ 2)).sum / ((l.length : ℝ) - 1))

/-- Model of `_autocovariancefunction` (gait_metrics.py, 1-d branch) for
`max_lag ≤ len x`; the spec leaves `max_lag ≥ N` undefined.  Entry `i` is
`Σ (x[:N-i] - mean(x[:N-i])) * (x[i:] - mean(x[i:]))` divided by
`N*s1*s2` (biased) or `(N-i)*s1*s2` (unbiased), with `s1, s2` the
`ddof=1` standard deviations of the two windows. -/
noncomputable def autocovariancefunction (x : List ℝ) (max_lag : ℕ) (biased : Bool) :
    List ℝ :=
  (List.range max_lag).map (fun i =>
    let w1 := x.take (x.length - i)
    let w2 := x.drop i
    let ac := (List.zipWith (fun a b => (a - npMean w1) * (b - npMean w2)) w1 w2).sum
    if biased then ac / ((x.length : ℝ) * npStd w1 * npStd w2)
    else ac / (((x.length : ℝ) - (i : ℝ)) * npStd w1 * npStd w2))

/-- Model of `_autocovariance_lag` (gait_metrics.py, 1-d branch) for
`lag ≤ len x`: the single-lag variant with the same windows and the same
normalization as `autocovariancefunction`. -/
noncomputable def autocovariance_lag (x : List ℝ) (lag : ℕ) (biased : Bool) : ℝ :=
  let w1 := x.take (x.length - lag)
  let w2 := x.drop lag
  let ac := (List.zipWith (fun a b => (a - npMean w1) * (b - npMean w2)) w1 w2).sum
  if biased then ac / ((x.length : ℝ) * npStd w1 * npStd w2)
  else ac / (((x.length : ℝ) - (lag : ℝ)) * npStd w1 * npStd w2)

/-- Column `j` of a two-dimensional array, modelled as a list of rows. -/
def column (x : List (List ℝ)) (j : ℕ) : List ℝ := x.map (fun r => r.getD j 0)

/-- Model of `_autocovariancefunction` (gait_metrics.py, 2-d branch) for
`max_lag ≤ len x`.  The means and the elementwise products are taken per
column (`axis=0` in the source), but the two standard deviations in the
denominator are computed over the *flattened* window (`std` is called
without an `axis` argument), so the same pair of scalars divides every
column of a given lag row. -/
noncomputable def autocovariancefunction2d (x : List (List ℝ)) (max_lag : ℕ)
    (biased : Bool) : List (List ℝ) :=
  (List.range max_lag).map (fun i =>
    let w1 := x.take (x.length - i)
    let w2 := x.drop i
    let s1 := npStd w1.flatten
    let s2 := npStd w2.flatten
    (List.range (x.headD []).length).map (fun j =>
      let c1 := column w1 j
      let c2 := column w2 j
      let ac := (List.zipWith (fun a b => (a - npMean c1) * (b - npMean c2)) c1 c2).sum
      if biased then ac / ((x.length : ℝ) * s1 * s2)
      else ac / (((x.length : ℝ) - (i : ℝ)) * s1 * s2)))

/-- Model of `_autocovariance_lag` (gait_metrics.py, 2-d branch) for
`lag ≤ len x`.  Unlike the 2-d branch of `_autocovariancefunction`, here the
standard deviations are per column (`axis=0` is passed to `std`). -/
noncomputable def autocovariance_lag2d (x : List (List ℝ)) (lag : ℕ) (biased : Bool) :
    List ℝ :=
  let w1 := x.take (x.length - lag)
  let w2 := x.drop lag
  (List.range (x.headD []).length).map (fun j =>
    let c1 := column w1 j
    let c2 := column w2 j
    let ac := (List.zipWith (fun a b => (a - npMean c1) * (b - npMean c2)) c1 c2).sum
    if biased then ac / ((x.length : ℝ) * npStd c1 * npStd c2)
    else ac / (((x.length : ℝ) - (lag : ℝ)) * npStd c1 * npStd c2))

/-- Model of `_autocovariance` (gait_metrics.py): correlates the window
`x[i1:i2]` against `x[i2:i3]`.  `Except.ok none` models the `nan` sentinel
returned when `i3 > x.size`; `Except.ok (some v)` a numeric return.  The
elementwise product `(x[i1:i2] - m1) * (x[i2:i3] - m2)` follows numpy
broadcasting: it is defined when the windows have equal lengths or one of
them has length one (that window's single deviation multiplies every entry
of the other), and otherwise numpy raises a shape `ValueError`, modelled by
`Except.error ()`. -/
noncomputable def autocovariance (x : List ℝ) (i1 i2 i3 : ℕ) (biased : Bool) :
    Except Unit (Option ℝ) :=
  if x.length < i3 then Except.ok none
  else
    let w1 := (x.drop i1).take (i2 - i1)
    let w2 := (x.drop i2).take (i3 - i2)
    if w1.length = w2.length ∨ w1.length = 1 ∨ w2.length = 1 then
      let m1 := npMean w1
      let m2 := npMean w2
      let p1 := if w1.length = 1 then List.replicate w2.length (w1.headD 0) else w1
      let p2 := if w2.length = 1 then List.replicate w1.length (w2.headD 0) else w2
      let ac := (List.zipWith (fun a b => (a - m1) * (b - m2)) p1 p2).sum
      Except.ok (some (
        if biased then ac / (((i3 : ℝ) - (i1 : ℝ)) * npStd w1 * npStd w2)
        else ac / ((((i3 : ℝ) - (i1 : ℝ)) - ((i2 : ℝ) - (i1 : ℝ))) * npStd w1 * npStd w2)))
    else Except.error ()

/-- Helper for `find_peaks`: scipy's inner plateau scan.  Starting at `j`,
advances while `j < n - 1` and `x[j]` still equals the candidate value `v`,
returning the first index where the plateau ends. -/
def peakAhead (x : List ℚ) (v : ℚ) : ℕ → ℕ → ℕ
  | 0, j => j
  | fuel + 1, j =>
    if j < x.length - 1 ∧ x.getD j 0 = v then peakAhead x v fuel (j + 1) else j

/-- Helper for `find_peaks`: scipy `_local_maxima_1d`'s outer loop from
index `i`, emitting plateau midpoints `(i + i_ahead - 1) / 2` for samples
strictly greater than both neighbours. -/
def findPeaksFrom (x : List ℚ) : ℕ → ℕ → List ℕ
  | 0, _ => []
  | fuel + 1, i =>
    if i < x.length - 1 then
      if x.getD (i - 1) 0 < x.getD i 0 then
        let j := peakAhead x (x.getD i 0) x.length (i + 1)
        if x.getD j 0 < x.getD i 0 then
          (i + j - 1) / 2 :: findPeaksFrom x fuel (j + 1)
        else findPeaksFrom x fuel (i + 1)
      else findPeaksFrom x fuel (i + 1)
    else []

/-- Model of `scipy.signal.find_peaks` as called in gait_metrics.py (no
keyword filters): the indices of all interior local maxima, plateau
midpoints included. -/
def find_peaks (x : List ℚ) : List ℕ := findPeaksFrom x x.length 1

/-- Helper for `argmin`: fold keeping the first index of the smallest value
seen so far. -/
def argminGo {α : Type} [LinearOrder α] (cur : α) (curIdx k : ℕ) : List α → ℕ
  | [] => curIdx
  | b :: t => if b < cur then argminGo b k (k + 1) t else argminGo cur curIdx (k + 1) t

/-- Model of numpy `argmin`: the first index of the minimum; `none` models
the `ValueError` numpy raises on an empty array. -/
def argmin {α : Type} [LinearOrder α] : List α → Option ℕ
  | [] => none
  | a :: t => some (argminGo a 0 1 t)

/-- Model of the per-bout peak selection in `StepRegularityV._predict`
(lines 632-635; `StrideRegularityV._predict` is identical): given the
computed vertical-axis autocovariance curve `acf` and the target lag
`round(mean(step time)/dt)`, the source runs `pks, _ = find_peaks(acf)`,
`idx = argmin(abs(pks - lag))` and stores `acf[idx]` — the autocovariance
indexed by the *position* of the nearest peak in the peak list, not by the
peak's lag.  `Except.error ()` models the `ValueError` numpy `argmin`
raises when `find_peaks` found no peaks. -/
def stepRegularitySelect (acf : List ℚ) (lag : ℕ) : Except Unit ℚ :=
  match argmin ((find_peaks acf).map (fun p => |(p : ℤ) - (lag : ℤ)|)) with
  | none => Except.error ()
  | some idx => Except.ok (acf.getD idx 0)

/-- Model of the row selection in `GaitSymmetryIndex._predict` (lines
585-587): with `ac` the per-lag rows of the three axes' biased
autocovariances and `lag` the full mean-stride lag, the source runs
`pks, _ = find_peaks(sum(ac, axis=1))`, then `idx = int(0.5 *
argmin(abs(pks - lag)))` — half the *position* of the nearest peak in the
peak list — and reads row `ac[idx]`.  `Except.error ()` models the
`ValueError` numpy `argmin` raises when there are no peaks. -/
def gsiSelectIndex (ac : List (List ℚ)) (lag : ℕ) : Except Unit ℕ :=
  match argmin ((find_peaks (ac.map List.sum)).map (fun p => |(p : ℤ) - (lag : ℤ)|)) with
  | none => Except.error ()
  | some k => Except.ok (k / 2)

/-- Model of the phase vector in `PhaseCoordinationIndex._predict`:
elementwise `step time / stride time` over all events. -/
noncomputable def phases (stepTimes strideTimes : List ℝ) : List ℝ :=
  List.zipWith (fun a b => a / b) stepTimes strideTimes

/-- Phases of the events belonging to bout `i`: `phase[mask]` with
`mask = (inertial data i == i)`, `boutIdx` listing each event's bout. -/
noncomputable def boutPhases (stepTimes strideTimes : List ℝ) (boutIdx : List ℕ)
    (i : ℕ) : List ℝ :=
  ((phases stepTimes strideTimes).zip boutIdx).filterMap
    (fun pb => if pb.2 = i then some pb.1 else none)

/-- Model of `PhaseCoordinationIndex._predict`: per bout,
`psi_abs = mean |phase - 0.5|`, `psi_cv = std(phase, ddof=1) / mean phase`,
`pci = 100 * (psi_cv + psi_abs / 0.5)`; the per-bout value is then broadcast
back to every event row through `pci[inertial data i]`. -/
noncomputable def pciPredict (stepTimes strideTimes : List ℝ) (boutIdx : List ℕ)
    (nBouts : ℕ) : List ℝ :=
  let pci := (List.range nBouts).map (fun i =>
    let ph := boutPhases stepTimes strideTimes boutIdx i
    100 * (npStd ph / npMean ph + npMean (ph.map (fun p => |p - 0.5|)) / 0.5))
  boutIdx.map (fun b => pci.getD b 0)

/-- Model of `metric_hfenplus` (skimu/activity/metrics.py) downstream of the
two Butterworth filters: `acc_high` and `acc_low` are the high-pass and
low-pass filtered norms.  With `trim_zero=False` it returns
`acc_high + acc_low - 1` elementwise; with `trim_zero=True` the source calls
`minimum(acc_high + acc_low - 1)` — numpy `minimum` is a binary ufunc, so
this single-argument call raises a `TypeError`, modelled by
`Except.error ()`. -/
def metric_hfenplus (acc_high acc_low : List ℚ) (trim_zero : Bool) :
    Except Unit (List ℚ) :=
  if trim_zero then Except.error ()
  else Except.ok (List.zipWith (fun h l => h + l - 1) acc_high acc_low)

/-- Insertion into a sorted list, ascending. -/
def insertSorted (a : ℚ) : List ℚ → List ℚ
  | [] => [a]
  | b :: t => if a ≤ b then a :: b :: t else b :: insertSorted a t

/-- Insertion sort, ascending, modelling numpy's sort inside `percentile`. -/
def sortAsc : List ℚ → List ℚ
  | [] => []
  | a :: t => insertSorted a (sortAsc t)

/-- Model of numpy `percentile(arr, q)` with the default linear
interpolation: with `s` the sorted array and `pos = q/100 * (n-1)`,
interpolates between `s[⌊pos⌋]` and the following element. -/
def nppercentile (arr : List ℚ) (q : ℚ) : ℚ :=
  let s := sortAsc arr
  let pos := q / 100 * ((s.length : ℚ) - 1)
  let lo := (⌊pos⌋).toNat
  s.getD lo 0 + (pos - (lo : ℚ)) * (s.getD (lo + 1) 0 - s.getD lo 0)

/-- Model of `compute_tso_threshold` (skimu/sleep/tso.py): 15 times the 10th
percentile of `arr`, clamped into `[min_td, max_td]` by
`min(max(percentile(arr, 10) * 15.0, min_td), max_td)`. -/
def compute_tso_threshold (arr : List ℚ) (min_td max_td : ℚ) : ℚ :=
  min (max (nppercentile arr 10 * 15) min_td) max_td

theorem getD_range_map {β : Type} (f : ℕ → β) {n i : ℕ} (h : i < n) (d : β) :
    ((List.range n).map f).getD i d = f i := by
  simp [List.getD_eq_getElem?_getD, List.getElem?_range h]

theorem div_mul_mul_cancel_right (a D s t : ℝ) (hs : s ≠ 0) (ht : t ≠ 0) :
    a / (D * s * t) * (s * t) = a / D := by
  rw [mul_assoc, div_mul_eq_mul_div, mul_comm D (s * t), ← div_div,
    mul_div_assoc, div_self (mul_ne_zero hs ht), mul_one]

/-- C1 (amended): for a mean-centered, unit-scaled (ddof=1) signal `x` and any
`max_lag ≥ 1`, the lag-0 entry of `_autocovariancefunction` equals `(N-1)/N`
(not `1`), in both the biased and the unbiased normalization mode. -/
theorem acvf_lag_zero_value (x : List ℝ) (maxLag : ℕ) (b : Bool)
    (hm : npMean x = 0) (hs : npStd x = 1) (hL : 1 ≤ maxLag) :
    (autocovariancefunction x maxLag b).getD 0 0
      = ((x.length : ℝ) - 1) / (x.length : ℝ) := by
  have hQ : (x.map (fun v => (v - npMean x) ^ 2)).sum / ((x.length : ℝ) - 1) = 1 := by
    have h := hs
    simp only [npStd] at h
    exact Real.sqrt_eq_one.mp h
  have hne : ((x.length : ℝ) - 1) ≠ 0 := by
    intro h0
    rw [h0, div_zero] at hQ
    exact one_ne_zero hQ.symm
  have hsum : (x.map (fun v => (v - npMean x) ^ 2)).sum = (x.length : ℝ) - 1 :=
    (div_eq_one_iff_eq hne).mp hQ
  have h0 : 0 < maxLag := hL
  rw [autocovariancefunction, getD_range_map _ h0]
  simp only [Nat.sub_zero, List.take_length, List.drop_zero, List.zipWith_same,
    Nat.cast_zero, sub_zero, hs, hm] at hsum ⊢
  simp only [← pow_two]
  cases b <;> simp only [if_true, if_false, Bool.false_eq_true, reduceIte, hsum] <;> ring_nf

/-- C4 (amended): for one-dimensional `x` and every lag `l < len x`,
`_autocovariance_lag(x, l, biased)` equals entry `l` of
`_autocovariancefunction(x, l+1, biased)`, in both normalization modes. -/
theorem autocovariance_lag_eq_function_entry_1d (x : List ℝ) (l : ℕ) (b : Bool)
    (hl : l < x.length) :
    autocovariance_lag x l b = (autocovariancefunction x (l + 1) b).getD l 0 := by
  rw [autocovariancefunction, getD_range_map _ (Nat.lt_succ_self l)]
  rfl

/-- C4 (witness for the amended theorem) at `x = [1, 2, 4]`, `l = 1`. -/
theorem autocovariance_lag_eq_function_entry_1d_witness :
    1 < ([1, 2, 4] : List ℝ).length ∧
      autocovariance_lag [1, 2, 4] 1 false
        = (autocovariancefunction [1, 2, 4] 2 false).getD 1 0 :=
  ⟨by norm_num, autocovariance_lag_eq_function_entry_1d [1, 2, 4] 1 false (by norm_num)⟩

/-- C1 (counterexample): `x = [-1, 0, 1]` is mean-centered with ddof=1 standard
deviation exactly 1, yet the lag-0 entry of `_autocovariancefunction` is `2/3`,
not `1`, in both normalization modes. -/
theorem acvf_lag_zero_not_one :
    npMean [-1, 0, 1] = 0 ∧ npStd [-1, 0, 1] = 1 ∧
      (autocovariancefunction [-1, 0, 1] 1 true).getD 0 0 ≠ 1 ∧
      (autocovariancefunction [-1, 0, 1] 1 false).getD 0 0 ≠ 1 := by
  refine ⟨by norm_num [npMean], by norm_num [npStd, npMean], ?_, ?_⟩ <;>
    norm_num [autocovariancefunction, npStd, npMean]

/-- C1 (witness for the amended theorem) at `x = [-1, 0, 1]`, `max_lag = 1`,
biased mode. -/
theorem acvf_lag_zero_value_witness :
    npMean [-1, 0, 1] = 0 ∧ npStd [-1, 0, 1] = 1 ∧ 1 ≤ 1 ∧
      (autocovariancefunction [-1, 0, 1] 1 true).getD 0 0
        = ((([-1, 0, 1] : List ℝ).length : ℝ) - 1) / (([-1, 0, 1] : List ℝ).length : ℝ) :=
  ⟨by norm_num [npMean], by norm_num [npStd, npMean], le_refl 1,
    acvf_lag_zero_value [-1, 0, 1] 1 true (by norm_num [npMean])
      (by norm_num [npStd, npMean]) (le_refl 1)⟩

/-- C4 (counterexample): for the two-dimensional signal `[[-1,-2],[0,0],[1,2]]`
and lag 0, `_autocovariance_lag` normalizes by the per-column standard
deviations and yields `2/3` in column 0, while entry 0 of
`_autocovariancefunction` normalizes by the flattened-window standard
deviations and yields `1/3`; the two responses differ. -/
theorem autocovariance_lag_ne_function_entry_2d :
    (autocovariance_lag2d [[-1, -2], [0, 0], [1, 2]] 0 false).getD 0 0 = 2 / 3 ∧
      ((autocovariancefunction2d [[-1, -2], [0, 0], [1, 2]] 1 false).getD 0 []).getD 0 0
        = 1 / 3 ∧ (2 : ℝ) / 3 ≠ 1 / 3 := by
  refine ⟨?_, ?_, by norm_num⟩
  · norm_num [autocovariance_lag2d, column, npStd, npMean, List.range_succ]
  · norm_num [autocovariancefunction2d, column, npStd, npMean, List.range_succ]
    rw [mul_assoc, Real.mul_self_sqrt (by norm_num)]
    norm_num

/-- C5 (counterexample): column 0 of the 2-d `_autocovariancefunction` of
`[[-1,-2],[0,0],[1,2]]` is `1/3` at lag 0, while `_autocovariancefunction`
applied to column 0 alone gives `2/3`: the per-window standard-deviation
normalization does not operate independently per axis. -/
theorem autocovariancefunction2d_column_ne_per_axis :
    ((autocovariancefunction2d [[-1, -2], [0, 0], [1, 2]] 1 false).getD 0 []).getD 0 0
        = 1 / 3 ∧
      (autocovariancefunction (column [[-1, -2], [0, 0], [1, 2]] 0) 1 false).getD 0 0
        = 2 / 3 ∧ (1 : ℝ) / 3 ≠ 2 / 3 := by
  refine ⟨?_, ?_, by norm_num⟩
  · norm_num [autocovariancefunction2d, column, npStd, npMean, List.range_succ]
    rw [mul_assoc, Real.mul_self_sqrt (by norm_num)]
    norm_num
  · norm_num [autocovariancefunction, column, npStd, npMean, List.range_succ]

/-- C5 (amended): in the 2-d `_autocovariancefunction` only the
standard-deviation normalization couples the axes.  For every lag `i < L` and
column `j`, entry `(i, j)` times the two flattened-window standard deviations
equals entry `i` of the 1-d `_autocovariancefunction` of column `j` alone
times that column's two window standard deviations (the per-axis means and
cross-products coincide; only the divisors differ). -/
theorem autocovariancefunction2d_column_coupling (x : List (List ℝ)) (L : ℕ) (b : Bool)
    (i j : ℕ) (hi : i < L) (hj : j < (x.headD []).length)
    (hf1 : npStd (x.take (x.length - i)).flatten ≠ 0)
    (hf2 : npStd (x.drop i).flatten ≠ 0)
    (hc1 : npStd (column (x.take (x.length - i)) j) ≠ 0)
    (hc2 : npStd (column (x.drop i) j) ≠ 0) :
    ((autocovariancefunction2d x L b).getD i []).getD j 0
        * (npStd (x.take (x.length - i)).flatten * npStd (x.drop i).flatten)
      = (autocovariancefunction (column x j) L b).getD i 0
        * (npStd (column (x.take (x.length - i)) j) * npStd (column (x.drop i) j)) := by
  have hlen : (column x j).length = x.length := by simp [column]
  have ht : (column x j).take (x.length - i) = column (x.take (x.length - i)) j := by
    simp [column, List.map_take]
  have hd : (column x j).drop i = column (x.drop i) j := by
    simp [column, List.map_drop]
  rw [autocovariancefunction2d, getD_range_map _ hi, autocovariancefunction,
    getD_range_map _ hi]
  simp only [getD_range_map _ hj, hlen, ht, hd]
  cases b <;>
    simp only [if_true, if_false, Bool.false_eq_true, reduceIte] <;>
    rw [div_mul_mul_cancel_right _ _ _ _ hf1 hf2, div_mul_mul_cancel_right _ _ _ _ hc1 hc2]

/-- C5 (witness for the amended theorem) at `x = [[-1,-2],[0,0],[1,2]]`,
`L = 1`, `i = 0`, `j = 0`, unbiased mode. -/
theorem autocovariancefunction2d_column_coupling_witness :
    (0 : ℕ) < 1 ∧
      (0 : ℕ) < (([[-1, -2], [0, 0], [1, 2]] : List (List ℝ)).headD []).length ∧
      npStd (([[-1, -2], [0, 0], [1, 2]] : List (List ℝ)).take
          (([[-1, -2], [0, 0], [1, 2]] : List (List ℝ)).length - 0)).flatten ≠ 0 ∧
      npStd (([[-1, -2], [0, 0], [1, 2]] : List (List ℝ)).drop 0).flatten ≠ 0 ∧
      npStd (column (([[-1, -2], [0, 0], [1, 2]] : List (List ℝ)).take
          (([[-1, -2], [0, 0], [1, 2]] : List (List ℝ)).length - 0)) 0) ≠ 0 ∧
      npStd (column (([[-1, -2], [0, 0], [1, 2]] : List (List ℝ)).drop 0) 0) ≠ 0 ∧
      ((autocovariancefunction2d [[-1, -2], [0, 0], [1, 2]] 1 false).getD 0 []).getD 0 0
          * (npStd (([[-1, -2], [0, 0], [1, 2]] : List (List ℝ)).take
                (([[-1, -2], [0, 0], [1, 2]] : List (List ℝ)).length - 0)).flatten
             * npStd (([[-1, -2], [0, 0], [1, 2]] : List (List ℝ)).drop 0).flatten)
        = (autocovariancefunction (column [[-1, -2], [0, 0], [1, 2]] 0) 1 false).getD 0 0
          * (npStd (column (([[-1, -2], [0, 0], [1, 2]] : List (List ℝ)).take
                (([[-1, -2], [0, 0], [1, 2]] : List (List ℝ)).length - 0)) 0)
             * npStd (column (([[-1, -2], [0, 0], [1, 2]] : List (List ℝ)).drop 0) 0)) := by
  have hf : npStd (([[-1, -2], [0, 0], [1, 2]] : List (List ℝ)).take
      (([[-1, -2], [0, 0], [1, 2]] : List (List ℝ)).length - 0)).flatten ≠ 0 := by
    have : npStd (([[-1, -2], [0, 0], [1, 2]] : List (List ℝ)).take
        (([[-1, -2], [0, 0], [1, 2]] : List (List ℝ)).length - 0)).flatten = Real.sqrt 2 := by
      norm_num [npStd, npMean]
    rw [this]
    exact Real.sqrt_ne_zero'.mpr (by norm_num)
  have hf2 : npStd (([[-1, -2], [0, 0], [1, 2]] : List (List ℝ)).drop 0).flatten ≠ 0 := by
    have : npStd (([[-1, -2], [0, 0], [1, 2]] : List (List ℝ)).drop 0).flatten
        = Real.sqrt 2 := by
      norm_num [npStd, npMean]
    rw [this]
    exact Real.sqrt_ne_zero'.mpr (by norm_num)
  have hc : npStd (column (([[-1, -2], [0, 0], [1, 2]] : List (List ℝ)).take
      (([[-1, -2], [0, 0], [1, 2]] : List (List ℝ)).length - 0)) 0) ≠ 0 := by
    have : npStd (column (([[-1, -2], [0, 0], [1, 2]] : List (List ℝ)).take
        (([[-1, -2], [0, 0], [1, 2]] : List (List ℝ)).length - 0)) 0) = 1 := by
      norm_num [npStd, npMean, column]
    rw [this]
    exact one_ne_zero
  have hc2 : npStd (column (([[-1, -2], [0, 0], [1, 2]] : List (List ℝ)).drop 0) 0) ≠ 0 := by
    have : npStd (column (([[-1, -2], [0, 0], [1, 2]] : List (List ℝ)).drop 0) 0) = 1 := by
      norm_num [npStd, npMean, column]
    rw [this]
    exact one_ne_zero
  exact ⟨Nat.zero_lt_one, by norm_num, hf, hf2, hc, hc2,
    autocovariancefunction2d_column_coupling [[-1, -2], [0, 0], [1, 2]] 1 false 0 0
      Nat.zero_lt_one (by norm_num) hf hf2 hc hc2⟩

/-- C6 (amended): for `i1 < i2 < i3`, `_autocovariance(x, i1, i2, i3, biased)`
returns the `nan` sentinel whenever `i3` exceeds the signal length, and
returns a numeric value whenever `i3` does not exceed the signal length *and*
the two windows have equal lengths (`i2 - i1 = i3 - i2`, as in every in-repo
caller); with unequal window lengths (neither of length one) numpy raises a
broadcasting error instead of returning. -/
theorem autocovariance_window_sentinel (x : List ℝ) (i1 i2 i3 : ℕ) (b : Bool)
    (h12 : i1 < i2) (h23 : i2 < i3) :
    (x.length < i3 → autocovariance x i1 i2 i3 b = Except.ok none) ∧
      (i3 ≤ x.length → i2 - i1 = i3 - i2 →
        ∃ v : ℝ, autocovariance x i1 i2 i3 b = Except.ok (some v)) := by
  constructor
  · intro hlt
    rw [autocovariance, if_pos hlt]
  · intro hle heq
    have hw1 : ((x.drop i1).take (i2 - i1)).length = i2 - i1 := by
      simp only [List.length_take, List.length_drop]
      exact min_eq_left (Nat.sub_le_sub_right (le_trans (le_of_lt h23) hle) i1)
    have hw2 : ((x.drop i2).take (i3 - i2)).length = i3 - i2 := by
      simp only [List.length_take, List.length_drop]
      exact min_eq_left (Nat.sub_le_sub_right hle i2)
    have hnlt : (x.length < i3) = False := eq_false (not_lt.mpr hle)
    simp only [autocovariance, hnlt, if_false, hw1, hw2]
    have hcond : (i2 - i1 = i3 - i2 ∨ i2 - i1 = 1 ∨ i3 - i2 = 1) = True :=
      eq_true (Or.inl heq)
    simp only [hcond, if_true]
    exact ⟨_, rfl⟩

/-- C6 (counterexample): with `x` of length 5 and `i1 = 0 < i2 = 2 < i3 = 5`,
`i3` does not exceed the signal length, yet `_autocovariance` does not return
a value: the windows have lengths 2 and 3 and the elementwise product raises
a numpy broadcasting error. -/
theorem autocovariance_window_raises_unequal :
    autocovariance ([0, 1, 2, 3, 4] : List ℝ) 0 2 5 false = Except.error () ∧
      ¬ (([0, 1, 2, 3, 4] : List ℝ).length < 5) := by
  constructor
  · rfl
  · norm_num

/-- C6 (witness for the amended theorem) at `x = [1, 2, 3, 4]`, `i1 = 0`,
`i2 = 2`, `i3 = 4`. -/
theorem autocovariance_window_sentinel_witness :
    (0 : ℕ) < 2 ∧ (2 : ℕ) < 4 ∧
      ((([1, 2, 3, 4] : List ℝ).length < 4 →
          autocovariance [1, 2, 3, 4] 0 2 4 false = Except.ok none) ∧
        (4 ≤ ([1, 2, 3, 4] : List ℝ).length → 2 - 0 = 4 - 2 →
          ∃ v : ℝ, autocovariance [1, 2, 3, 4] 0 2 4 false = Except.ok (some v))) :=
  ⟨by norm_num, by norm_num,
    autocovariance_window_sentinel [1, 2, 3, 4] 0 2 4 false (by norm_num) (by norm_num)⟩

/-- C2 (code bug, evaluated at the failing input): for the autocovariance
curve `[0, 5, 0, 7, 0]` and target lag 3, the peaks are at lags 1 and 3 and
the peak nearest the target has lag 3 with autocovariance 7, but the stored
step/stride-regularity value is `acf[1] = 5`: the code indexes the curve by
the nearest peak's position in the peak list instead of by its lag. -/
theorem stepRegularity_select_wrong_index :
    find_peaks [0, 5, 0, 7, 0] = [1, 3] ∧
      stepRegularitySelect [0, 5, 0, 7, 0] 3 = Except.ok 5 ∧
      ([0, 5, 0, 7, 0] : List ℚ).getD 3 0 = 7 ∧ (5 : ℚ) ≠ 7 :=
  ⟨by decide, rfl, by decide, by decide⟩

/-- C7 (code bug, evaluated at the failing input): on a monotone
autocovariance curve `find_peaks` returns no peaks and the step/stride
regularity computation raises (numpy `argmin` of an empty array) instead of
producing the missing-value sentinel. -/
theorem stepRegularity_select_no_peak_error :
    find_peaks ([0, 1, 2, 3] : List ℚ) = [] ∧
      stepRegularitySelect [0, 1, 2, 3] 2 = Except.error () :=
  ⟨by decide, rfl⟩

/-- C3 (code bug, evaluated at the failing input): for the three-axis
autocovariance rows with summed curve `[0, 5, 0, 0, 7, 0]` and mean stride
lag 4, the peaks of the summed curve are at lags 1 and 4, yet the code
selects row `int(0.5 * 1) = 0` — which is not a peak at all and carries
summed autocovariance 0 — while the peak nearest half the mean stride lag
(lag 2) is lag 1 with summed autocovariance 5. -/
theorem gsi_select_wrong_index :
    find_peaks (List.map List.sum
        ([[0, 0, 0], [2, 2, 1], [0, 0, 0], [0, 0, 0], [3, 3, 1], [0, 0, 0]] :
          List (List ℚ))) = [1, 4] ∧
      gsiSelectIndex [[0, 0, 0], [2, 2, 1], [0, 0, 0], [0, 0, 0], [3, 3, 1], [0, 0, 0]] 4
        = Except.ok 0 ∧
      (0 : ℕ) ∉ find_peaks (List.map List.sum
        ([[0, 0, 0], [2, 2, 1], [0, 0, 0], [0, 0, 0], [3, 3, 1], [0, 0, 0]] :
          List (List ℚ))) ∧
      (([[0, 0, 0], [2, 2, 1], [0, 0, 0], [0, 0, 0], [3, 3, 1], [0, 0, 0]] :
          List (List ℚ)).getD 0 []).sum = 0 ∧
      (([[0, 0, 0], [2, 2, 1], [0, 0, 0], [0, 0, 0], [3, 3, 1], [0, 0, 0]] :
          List (List ℚ)).getD 1 []).sum = 5 := by
  have hs : List.map List.sum
      ([[0, 0, 0], [2, 2, 1], [0, 0, 0], [0, 0, 0], [3, 3, 1], [0, 0, 0]] :
        List (List ℚ)) = [0, 5, 0, 0, 7, 0] := by norm_num
  have h1 : find_peaks (List.map List.sum
      ([[0, 0, 0], [2, 2, 1], [0, 0, 0], [0, 0, 0], [3, 3, 1], [0, 0, 0]] :
        List (List ℚ))) = [1, 4] := by
    rw [hs]
    decide
  refine ⟨h1, ?_, ?_, ?_, ?_⟩
  · unfold gsiSelectIndex
    rw [hs]
    rfl
  · rw [h1]
    decide
  · norm_num [List.getD_cons_zero, List.getD_cons_succ]
  · norm_num [List.getD_cons_zero, List.getD_cons_succ]

/-- C8 (confirmed): for every event `e` belonging to bout `b`, the Phase
Coordination Index stored at row `e` equals
`100 * (CV + MAD/0.5)`, where the phases of bout `b` are the per-event
`step time / stride time` values, `CV` is their ddof=1 standard deviation
divided by their mean, and `MAD` is the mean absolute deviation from 0.5. -/
theorem pci_predict_formula (st str : List ℝ) (bi : List ℕ) (nb e b : ℕ)
    (he : e < bi.length) (hb : bi.getD e 0 = b) (hnb : b < nb) :
    (pciPredict st str bi nb).getD e 0
      = 100 * (npStd (boutPhases st str bi b) / npMean (boutPhases st str bi b)
          + npMean ((boutPhases st str bi b).map (fun p => |p - 0.5|)) / 0.5) := by
  have hbe : bi[e] = b := by
    rw [← hb, List.getD_eq_getElem?_getD, List.getElem?_eq_getElem he]
    rfl
  unfold pciPredict
  rw [List.getD_eq_getElem?_getD, List.getElem?_map, List.getElem?_eq_getElem he]
  simp only [Option.map_some', Option.getD_some, hbe, getD_range_map _ hnb]

/-- C8 (witness) at a single bout of two events with step times 1 and stride
times 2. -/
theorem pci_predict_formula_witness :
    (0 : ℕ) < ([0, 0] : List ℕ).length ∧ ([0, 0] : List ℕ).getD 0 0 = 0 ∧ (0 : ℕ) < 1 ∧
      (pciPredict [1, 1] [2, 2] [0, 0] 1).getD 0 0
        = 100 * (npStd (boutPhases [1, 1] [2, 2] [0, 0] 0)
              / npMean (boutPhases [1, 1] [2, 2] [0, 0] 0)
            + npMean ((boutPhases [1, 1] [2, 2] [0, 0] 0).map (fun p => |p - 0.5|)) / 0.5) :=
  ⟨by decide, by decide, by decide,
    pci_predict_formula [1, 1] [2, 2] [0, 0] 1 0 0 (by decide) (by decide) (by decide)⟩

/-- C9 (code bug, evaluated at a failing input): with `trim_zero = True`
(the default) `metric_hfenplus` raises instead of returning the elementwise
`max(acc_high + acc_low - 1, 0)`; with `trim_zero = False` it returns
`acc_high + acc_low - 1` elementwise. -/
theorem metric_hfenplus_trim_raises :
    metric_hfenplus [2, 0] [1/2, 1] true = Except.error () ∧
      metric_hfenplus [2, 0] [1/2, 1] false = Except.ok [3/2, 0] :=
  ⟨rfl, by norm_num [metric_hfenplus]⟩

/-- C10 (confirmed): for a nonempty array and thresholds `min_td ≤ max_td`,
`compute_tso_threshold` — 15 times the 10th percentile of the array, clamped
— lies between `min_td` and `max_td`. -/
theorem compute_tso_threshold_bounds (arr : List ℚ) (min_td max_td : ℚ)
    (harr : arr ≠ []) (h : min_td ≤ max_td) :
    min_td ≤ compute_tso_threshold arr min_td max_td ∧
      compute_tso_threshold arr min_td max_td ≤ max_td := by
  unfold compute_tso_threshold
  exact ⟨le_min (le_max_right _ _) h, min_le_right _ _⟩

/-- C10 (witness) at `arr = [3, 1, 2]`, `min_td = 1/10`, `max_td = 1/2`. -/
theorem compute_tso_threshold_bounds_witness :
    ([3, 1, 2] : List ℚ) ≠ [] ∧ (1 : ℚ)/10 ≤ 1/2 ∧
      ((1 : ℚ)/10 ≤ compute_tso_threshold [3, 1, 2] (1/10) (1/2) ∧
        compute_tso_threshold [3, 1, 2] (1/10) (1/2) ≤ 1/2) :=
  ⟨by decide, by norm_num,
    compute_tso_threshold_bounds [3, 1, 2] (1/10) (1/2) (by decide) (by norm_num)⟩
